import Mathlib

/-!
Verification of the whatsmiau session-lifecycle core
(`src/lib/whatsmiau/whatsmeow.go`) against its natural-language
specification.

The Go source is shallowly embedded: the concurrent `xsync.Map`s become
functions `String → Option α`, the opaque protocol client
(`whatsmeow.Client`) becomes a record of the predicates and stores the core
reads (`IsLoggedIn`, `IsConnected`, `Store.ID`, the LID store, registered
event handlers), and the outcomes of external calls (`GetQRChannel`,
`Connect`, `Logout`, `DeleteDevice`, `repo.Update`) are supplied as
environment/oracle records, since those collaborators are out of scope for
the spec.  Background events (the QR channel, context expiry) are supplied
as an explicit signal script consumed by the observer loop.
-/

namespace Whatsmiau

/-- Opaque error value returned by external collaborators. -/
structure Err where
  msg : String
deriving DecidableEq, Repr

/-- Model of `types.JID` (user, server, device part); the agent/integrator
parts play no role in the embedded code paths. -/
structure JID where
  user : String
  server : String
  device : Nat
deriving DecidableEq, Repr

/-- Model of `types.EmptyJID`, the zero value of `types.JID`. -/
def emptyJID : JID := ⟨"", "", 0⟩

/-- Model of `types.JID.ToNonAD`: drop the device part. -/
def JID.toNonAD (j : JID) : JID := { j with device := 0 }

/-- Model of `types.JID.String()`: `user@server`, or just the server when
the user part is empty (so the zero JID renders as the empty string). -/
def JID.render (j : JID) : String :=
  if j.user = "" then j.server else j.user ++ "@" ++ j.server

/-- Model of `types.JID.IsEmpty()`: comparison with the zero JID. -/
def JID.isEmpty (j : JID) : Bool := decide (j = emptyJID)

/-- Model of `types.DefaultUserServer` (phone-number-addressed JIDs). -/
def DefaultUserServer : String := "s.whatsapp.net"

/-- Model of `types.HiddenUserServer` (privacy/LID-addressed JIDs). -/
def HiddenUserServer : String := "lid"

/-- Model of a persisted device store (`*store.Device`): the core only
reads its `ID` field (`nil` for an unregistered device). -/
structure DeviceStore where
  id : Option JID
deriving DecidableEq, Repr

/-- Modelled from the spec: `Whatsmiau.Handle(id)` (the event-dispatch glue
wired by `AddEventHandler`) is not part of the shown core source; the spec
only says the live per-tenant handler is attached.  It is modelled as an
opaque handler value tagged by the tenant id. -/
inductive Handler where
  | handle (id : String)
deriving DecidableEq, Repr

/-- Model of the client's local identity store `client.Store.LIDs`:
forward (phone → LID) and reverse (LID → phone) lookups, each of which may
fail. -/
structure LIDStore where
  getLIDForPN : JID → Except Err JID
  getPNForLID : JID → Except Err JID

/-- Identity store of a device with no mappings. -/
def emptyLIDs : LIDStore := ⟨fun _ => .ok emptyJID, fun _ => .ok emptyJID⟩

/-- Model of `whatsmeow.Client` as seen by the core: the store identity,
the `IsLoggedIn`/`IsConnected` predicates (opaque, hence plain fields), the
registered event handlers, the applied proxy configuration and the result
its external `Logout` call would report. -/
structure Client where
  store : DeviceStore
  loggedIn : Bool
  connected : Bool
  handlers : List Handler
  lids : LIDStore
  proxy : Option String
  logoutResult : Option Err

/-- Model of `whatsmeow.NewClient(device, log)`: a client wrapping the
given device store, with no handlers, no proxy and no live connection.
Whether the wrapped device already carries credentials (`IsLoggedIn`) is an
input, since the predicate belongs to the opaque external client. -/
def NewClient (st : DeviceStore) (lin : Bool) : Client :=
  { store := st, loggedIn := lin, connected := false, handlers := [],
    lids := emptyLIDs, proxy := none, logoutResult := none }

/-- Model of `models.Instance` (tenant record): the fields the core reads
are `ID`, `RemoteJID` and `InstanceProxy`. -/
structure Instance where
  id : String
  remoteJID : String
  proxy : Option String
deriving DecidableEq, Repr

/-- Modelled from the spec: `configProxy` is called by the core but defined
outside the shown source; per §4.1/§4.3 it "applies the tenant's proxy
configuration" to the client. -/
def configProxy (c : Client) (p : Option String) : Client := { c with proxy := p }

/-- Functional update of a `String`-keyed map (an `xsync.Map` `Store`). -/
def mapUpd (f : String → Option α) (k : String) (v : α) : String → Option α :=
  fun x => if x = k then some v else f x

/-- Functional removal from a `String`-keyed map (an `xsync.Map` `Delete`). -/
def mapDel (f : String → Option α) (k : String) : String → Option α :=
  fun x => if x = k then none else f x

/-- Model of the `Whatsmiau` struct state: the session registry
(`clients`), the persisted-device container (the set of stored devices),
the tenant repository (`repo`, read side) together with a log of the
`repo.Update` calls issued, the pairing cache (`qrCache`), the observer
guard (`observerRunning`) and the read-through tenant cache
(`instanceCache`). -/
structure MiauState where
  clients : String → Option Client
  container : List DeviceStore
  repoInstances : String → Option Instance
  repoUpdates : List (String × String)
  qrCache : String → Option String
  observerRunning : String → Option Bool
  instanceCache : String → Option Instance

/-- Model of `whatsmiau.Status` values. -/
inductive StatusV where
  | Closed
  | Connecting
  | QrCode
  | Connected
deriving DecidableEq, Repr

/-- Embedding of `Whatsmiau.Status` (lines 276–296), threaded through the
state to record that it only ever performs `Load` operations: no session →
`Closed`; connected and logged in → `Connected`; a cached QR code and
connected → `QrCode`; logged in → `Connecting`; otherwise `Closed`. -/
def StatusM (s : MiauState) (id : String) : StatusV × MiauState :=
  match s.clients id with
  | none => (.Closed, s)
  | some client =>
    if client.connected && client.loggedIn then (.Connected, s)
    else if (s.qrCache id).isSome && client.connected then (.QrCode, s)
    else if client.loggedIn then (.Connecting, s)
    else (.Closed, s)

/-- Status projection written from the words of the spec (§4.4 / claim C5):
no session registered → `Closed`; session connected AND authenticated →
`Connected`; session connected AND a pairing code is cached → `QrCode`;
session authenticated but not currently connected → `Connecting`;
otherwise → `Closed`. -/
def StatusSpec (s : MiauState) (id : String) : StatusV :=
  match s.clients id with
  | none => .Closed
  | some client =>
    if client.connected && client.loggedIn then .Connected
    else if client.connected && (s.qrCache id).isSome then .QrCode
    else if client.loggedIn && !client.connected then .Connecting
    else .Closed

/-- C5: `Status(tenantId)` is a pure projection — it returns the state
unchanged, having performed only map `Load`s — and its case analysis is
exactly the claimed order: no session → Closed; connected ∧ authenticated →
Connected; connected ∧ code cached → QrCode; authenticated ∧ ¬connected →
Connecting; otherwise Closed.  In particular every tenant id with no
registered session yields Closed. -/
theorem status_matches_spec (s : MiauState) (id : String) :
    StatusM s id = (StatusSpec s id, s) := by
  unfold StatusM StatusSpec
  cases h : s.clients id with
  | none => rfl
  | some client =>
    cases hc : client.connected <;> cases hl : client.loggedIn <;>
      cases hq : (s.qrCache id).isSome <;> simp [hc, hl, hq]

/-- Model of one item received on the QR channel
(`whatsmeow.QRChannelItem`): an event kind and a code string. -/
structure QRItem where
  event : String
  code : String
deriving DecidableEq, Repr

/-- One outcome of the observer loop's `select` (lines 210–248): the
2-minute context fires, the QR channel is closed, or an item is received. -/
inductive ObsSignal where
  | ctxDone
  | chanClosed
  | recv (item : QRItem)
deriving DecidableEq, Repr

/-- Oracle for the external calls `observeConnection` makes, plus the
script of signals its `select` loop sees, in order. -/
structure ObsEnv where
  qrChanErr : Option Err
  connectErr : Option Err
  logoutErr : Option Err
  deleteFails : Bool
  updateErr : Option Err
  signals : List ObsSignal

/-- Exit paths of one `observeConnection` run.  `running` marks a signal
script that ended before the loop did (the observer would still be looping,
so its deferred cleanup has not run). -/
inductive ObsExit where
  | alreadyRunning
  | qrChanFailed
  | connectFailed
  | timeout
  | channelClosed
  | successNoJid
  | success
  | running
deriving DecidableEq, Repr

/-- Result of an `observeConnection` run: the shared state, the (pointer-)
mutated client, the exit path taken, and whether `cancel()` was called on
the 2-minute context. -/
structure ObsResult where
  state : MiauState
  client : Client
  exit : ObsExit
  cancelled : Bool

/-- Modelled from the spec: `getInstanceCached` is called by the core but
defined outside the shown source; per §3 it is the read-through tenant
cache, consulted before the repository, used to fetch the proxy
configuration.  A total miss yields a tenant record with default fields. -/
def getInstanceCached (s : MiauState) (id : String) : Instance × MiauState :=
  match s.instanceCache id with
  | some i => (i, s)
  | none =>
    match s.repoInstances id with
    | some i => (i, { s with instanceCache := mapUpd s.instanceCache id i })
    | none => (⟨id, "", none⟩, s)

/-- Embedding of the `for`/`select` loop of `observeConnection`
(lines 210–248).  `ctxDone`: best-effort logout and disconnect, delete the
persisted device (failures logged), remove the session from the registry,
exit.  `chanClosed`: cancel the context and exit.  A received `"code"`
item: store the code in the pairing cache and keep looping.  Any other
received item: if `Store.ID` is nil log the anomaly, else swap the
registered handlers to the live one and issue `repo.Update(id, jid)`
(failure logged); in both cases cancel and exit. -/
def obsLoop (env : ObsEnv) (id : String) :
    List ObsSignal → MiauState → Client → ObsResult
  | [], s, c => ⟨s, c, .running, false⟩
  | .ctxDone :: _, s, c =>
    let c := { c with connected := false }
    let s := if env.deleteFails then s
      else { s with container := s.container.filter (fun x => decide (x ≠ c.store)) }
    let s := { s with clients := mapDel s.clients id }
    ⟨s, c, .timeout, false⟩
  | .chanClosed :: _, s, c => ⟨s, c, .channelClosed, true⟩
  | .recv item :: rest, s, c =>
    if item.event = "code" then
      obsLoop env id rest { s with qrCache := mapUpd s.qrCache id item.code } c
    else
      match c.store.id with
      | none => ⟨s, c, .successNoJid, true⟩
      | some j =>
        let c := { c with handlers := [Handler.handle id] }
        let s := { s with repoUpdates := s.repoUpdates ++ [(id, j.render)] }
        ⟨s, c, .success, true⟩

/-- Embedding of the body of `observeConnection` after the guard and the
deferred cleanup are set up (lines 192–248): open the QR channel (a failure
is a terminal exit); if the client is not connected, fetch the cached
tenant record, apply its proxy configuration and connect (a connect failure
is a terminal exit); then run the event loop. -/
def obsBody (env : ObsEnv) (id : String) (s : MiauState) (c : Client) : ObsResult :=
  match env.qrChanErr with
  | some _ => ⟨s, c, .qrChanFailed, false⟩
  | none =>
    if c.connected then obsLoop env id env.signals s c
    else
      let gi := getInstanceCached s id
      let c := configProxy c gi.1.proxy
      match env.connectErr with
      | some _ => ⟨gi.2, c, .connectFailed, false⟩
      | none => obsLoop env id env.signals gi.2 { c with connected := true }

/-- Embedding of the deferred cleanup of `observeConnection`
(lines 187–191): delete the observer flag and the pairing cache entry for
this tenant. -/
def deferClear (s : MiauState) (id : String) : MiauState :=
  { s with observerRunning := mapDel s.observerRunning id,
           qrCache := mapDel s.qrCache id }

/-- Embedding of `Whatsmiau.observeConnection` (lines 179–249): the entry
guard is a `Load` on `observerRunning` (an already-set flag makes the call
a no-op) followed by a separate `Store`; the deferred cleanup deletes the
observer flag and the pairing cache entry on every exit of the body (it has
not yet run when the signal script leaves the loop still `running`).  The
client is passed in by the spawning `Connect`; in the Go code the registry
holds a pointer to the same object. -/
def observeConnection (s : MiauState) (c : Client) (id : String) (env : ObsEnv) :
    ObsResult :=
  match s.observerRunning id with
  | some _ => ⟨s, c, .alreadyRunning, false⟩
  | none =>
    let r := obsBody env id { s with observerRunning := mapUpd s.observerRunning id true } c
    if r.exit = .running then r
    else { r with state := deferClear r.state id }

/-- Characterization of a `timeout` exit of the observer loop: the session
is removed from the registry, the persisted device is deleted (when the
delete does not fail), and the client has been disconnected; the loop never
changes the client's device store. -/
theorem obsLoop_timeout_char (env : ObsEnv) (id : String) (l : List ObsSignal) :
    ∀ (s : MiauState) (c : Client),
      (obsLoop env id l s c).exit = .timeout →
      (obsLoop env id l s c).state.clients id = none ∧
      (env.deleteFails = false → c.store ∉ (obsLoop env id l s c).state.container) ∧
      (obsLoop env id l s c).client.connected = false ∧
      (obsLoop env id l s c).client.store = c.store := by
  induction l with
  | nil => intro s c h; simp [obsLoop] at h
  | cons sig rest ih =>
    intro s c h
    cases sig with
    | ctxDone =>
      refine ⟨by simp [obsLoop, mapDel], ?_, rfl, rfl⟩
      intro hdel
      simp [obsLoop, hdel, List.mem_filter]
    | chanClosed => simp [obsLoop] at h
    | recv item =>
      by_cases he : item.event = "code"
      · simp only [obsLoop, he, if_pos] at h ⊢
        exact ih _ c h
      · cases hid : c.store.id with
        | none => simp [obsLoop, he, hid] at h
        | some j => simp [obsLoop, he, hid] at h

/-- Lift of `obsLoop_timeout_char` through the observer body. -/
theorem obsBody_timeout_char (env : ObsEnv) (id : String) (s : MiauState) (c : Client)
    (h : (obsBody env id s c).exit = .timeout) :
    (obsBody env id s c).state.clients id = none ∧
    (env.deleteFails = false → c.store ∉ (obsBody env id s c).state.container) ∧
    (obsBody env id s c).client.connected = false := by
  cases hq : env.qrChanErr with
  | some e => simp [obsBody, hq] at h
  | none =>
    by_cases hc : c.connected
    · simp only [obsBody, hq, hc, if_pos] at h ⊢
      obtain ⟨h1, h2, h3, _⟩ := obsLoop_timeout_char env id env.signals s c h
      exact ⟨h1, h2, h3⟩
    · cases hce : env.connectErr with
      | some e => simp [obsBody, hq, hc, hce] at h
      | none =>
        simp only [obsBody, hq, hc, hce, if_neg] at h ⊢
        obtain ⟨h1, h2, h3, _⟩ := obsLoop_timeout_char env id env.signals
          (getInstanceCached s id).2
          { configProxy c (getInstanceCached s id).1.proxy with connected := true } h
        exact ⟨h1, h2, h3⟩

/-- Shape of a guarded `observeConnection` run: once the entry guard is
passed, the result is the body's result with the deferred cleanup applied,
unless the signal script left the loop still running. -/
theorem observeConnection_eq (s : MiauState) (c : Client) (id : String) (env : ObsEnv)
    (hguard : s.observerRunning id = none) :
    observeConnection s c id env =
      (if (obsBody env id { s with observerRunning := mapUpd s.observerRunning id true } c).exit
          = ObsExit.running
       then obsBody env id { s with observerRunning := mapUpd s.observerRunning id true } c
       else { obsBody env id { s with observerRunning := mapUpd s.observerRunning id true } c
              with state := deferClear (obsBody env id
                { s with observerRunning := mapUpd s.observerRunning id true } c).state id }) := by
  unfold observeConnection
  rw [hguard]

/-- C3: whenever the observer's 2-minute window expires (`timeout` exit),
the run has disconnected the client (after a best-effort logout), deleted
the persisted device (when the external delete does not fail), removed the
tenant's session from the registry, and — via the deferred cleanup —
cleared the observer flag and the pairing cache entry, so that a subsequent
`Status` on this tenant returns `Closed`. -/
theorem observe_timeout_teardown (s : MiauState) (c : Client) (id : String) (env : ObsEnv)
    (h : (observeConnection s c id env).exit = .timeout) :
    (observeConnection s c id env).state.clients id = none ∧
    (observeConnection s c id env).state.qrCache id = none ∧
    (observeConnection s c id env).state.observerRunning id = none ∧
    (env.deleteFails = false → c.store ∉ (observeConnection s c id env).state.container) ∧
    (observeConnection s c id env).client.connected = false ∧
    (StatusM (observeConnection s c id env).state id).1 = .Closed := by
  cases hguard : s.observerRunning id with
  | some b => rw [observeConnection] at h ⊢; rw [hguard] at h; simp at h
  | none =>
    rw [observeConnection_eq s c id env hguard] at h ⊢
    by_cases hb : (obsBody env id { s with observerRunning := mapUpd s.observerRunning id true } c).exit
        = ObsExit.running
    · rw [if_pos hb] at h; rw [h] at hb; simp at hb
    · rw [if_neg hb] at h ⊢
      simp only at h
      obtain ⟨h1, h2, h3⟩ := obsBody_timeout_char env id
        { s with observerRunning := mapUpd s.observerRunning id true } c h
      refine ⟨by simpa [deferClear] using h1, by simp [deferClear, mapDel],
        by simp [deferClear, mapDel], ?_, h3, ?_⟩
      · intro hdel
        simpa [deferClear] using h2 hdel
      · simp [StatusM, deferClear, h1]

/-- Concrete device identity used by the witness runs. -/
def wJid : JID := ⟨"5511", "s.whatsapp.net", 0⟩

/-- Concrete core state for witness runs: one persisted device, no
registered sessions, empty caches, no running observer. -/
def wState : MiauState :=
  ⟨fun _ => none, [⟨some wJid⟩], fun _ => none, [], fun _ => none,
    fun _ => none, fun _ => none⟩

/-- Concrete client for witness runs: holds the persisted device, is
connected but not logged in (mid-pairing). -/
def wClient : Client :=
  { store := ⟨some wJid⟩, loggedIn := false, connected := true,
    handlers := [], lids := emptyLIDs, proxy := none, logoutResult := none }

/-- Observer environment whose only signal is expiry of the 2-minute
window. -/
def wEnvTimeout : ObsEnv :=
  { qrChanErr := none, connectErr := none, logoutErr := none,
    deleteFails := false, updateErr := none, signals := [.ctxDone] }

/-- Witness for `observe_timeout_teardown` at a concrete run. -/
theorem observe_timeout_teardown_witness :
    (observeConnection wState wClient "t1" wEnvTimeout).state.clients "t1" = none ∧
    (observeConnection wState wClient "t1" wEnvTimeout).state.qrCache "t1" = none ∧
    (observeConnection wState wClient "t1" wEnvTimeout).state.observerRunning "t1" = none ∧
    wClient.store ∉ (observeConnection wState wClient "t1" wEnvTimeout).state.container ∧
    (observeConnection wState wClient "t1" wEnvTimeout).client.connected = false ∧
    (StatusM (observeConnection wState wClient "t1" wEnvTimeout).state "t1").1 = .Closed :=
  have h := observe_timeout_teardown wState wClient "t1" wEnvTimeout rfl
  ⟨h.1, h.2.1, h.2.2.1, h.2.2.2.1 rfl, h.2.2.2.2.1, h.2.2.2.2.2⟩

/-- C6: every observer run that passes the entry guard clears, on every
exit path (the body's exits are QR-channel open failure, connect failure,
window expiry, channel close, and the two pairing-success cases — everything
except a still-`running` loop, where the deferred cleanup has not yet run),
both the observer flag and the pairing cache entry for its tenant id. -/
theorem observe_clears_guard_and_cache (s : MiauState) (c : Client) (id : String)
    (env : ObsEnv)
    (hguard : s.observerRunning id = none)
    (hterm : (observeConnection s c id env).exit ≠ .running) :
    (observeConnection s c id env).state.observerRunning id = none ∧
    (observeConnection s c id env).state.qrCache id = none := by
  rw [observeConnection_eq s c id env hguard] at hterm ⊢
  by_cases hb : (obsBody env id { s with observerRunning := mapUpd s.observerRunning id true } c).exit
      = ObsExit.running
  · rw [if_pos hb] at hterm; exact absurd hb hterm
  · rw [if_neg hb]
    exact ⟨by simp [deferClear, mapDel], by simp [deferClear, mapDel]⟩

/-- Observer environment whose only signal is the QR channel closing. -/
def wEnvClosed : ObsEnv :=
  { qrChanErr := none, connectErr := none, logoutErr := none,
    deleteFails := false, updateErr := none, signals := [.chanClosed] }

/-- Witness for `observe_clears_guard_and_cache` at a concrete run (channel
close exit). -/
theorem observe_clears_guard_and_cache_witness :
    (observeConnection wState wClient "t1" wEnvClosed).state.observerRunning "t1" = none ∧
    (observeConnection wState wClient "t1" wEnvClosed).state.qrCache "t1" = none :=
  observe_clears_guard_and_cache wState wClient "t1" wEnvClosed rfl (by decide)

/-- QR channel item whose event kind is `"timeout"` — not `"success"` and
not `"code"` (the protocol client also emits such terminal kinds). -/
def wItemTimeout : QRItem := ⟨"timeout", ""⟩

/-- Observer environment delivering a single `"timeout"`-kind channel
item. -/
def wEnvOther : ObsEnv :=
  { qrChanErr := none, connectErr := none, logoutErr := none,
    deleteFails := false, updateErr := none, signals := [.recv wItemTimeout] }

/-- C4 counterexample: the observer's branch is `if evt.Event == "code"`
… `else` (line 229), so a received item of kind `"timeout"` — which is not
a `"success"` event — triggers the full success transition: the run exits
on the success path, the registered handler is swapped to the live one, the
tenant record's remote identity is updated in the repository, and the timer
is cancelled.  This refutes the claim that exactly (only) a `"success"`
event triggers this transition. -/
theorem observe_transition_on_nonsuccess_event :
    wItemTimeout.event ≠ "success" ∧ wItemTimeout.event ≠ "code" ∧
    (observeConnection wState wClient "t1" wEnvOther).exit = ObsExit.success ∧
    (observeConnection wState wClient "t1" wEnvOther).client.handlers
      = [Handler.handle "t1"] ∧
    (observeConnection wState wClient "t1" wEnvOther).state.repoUpdates
      = [("t1", "5511@s.whatsapp.net")] ∧
    (observeConnection wState wClient "t1" wEnvOther).cancelled = true :=
  ⟨by decide, by decide, rfl, rfl, by decide, rfl⟩

/-- Effect of the observer loop's `"code"` branch iterated over a list of
codes: each one is stored into the pairing cache in turn. -/
def cacheStoreAll (id : String) (codes : List String) (s : MiauState) : MiauState :=
  codes.foldl (fun st q => { st with qrCache := mapUpd st.qrCache id q }) s

/-- Processing a prefix of `"code"` items only stores the successive codes
into the pairing cache and keeps looping. -/
theorem obsLoop_codes (env : ObsEnv) (id : String) (codes : List String) :
    ∀ (rest : List ObsSignal) (s : MiauState) (c : Client),
      obsLoop env id (codes.map (fun q => ObsSignal.recv ⟨"code", q⟩) ++ rest) s c
        = obsLoop env id rest (cacheStoreAll id codes s) c := by
  induction codes with
  | nil => intro rest s c; rfl
  | cons q qs ih =>
    intro rest s c
    exact ih rest { s with qrCache := mapUpd s.qrCache id q } c

/-- Storing codes into the pairing cache changes no other component of the
state. -/
theorem cacheFold_preserves (id : String) (codes : List String) :
    ∀ s : MiauState,
      (cacheStoreAll id codes s).clients = s.clients ∧
      (cacheStoreAll id codes s).repoUpdates = s.repoUpdates ∧
      (cacheStoreAll id codes s).observerRunning = s.observerRunning ∧
      (cacheStoreAll id codes s).container = s.container := by
  induction codes with
  | nil => intro s; exact ⟨rfl, rfl, rfl, rfl⟩
  | cons q qs ih => intro s; exact ih _

/-- C4 (amended): when the observer, after any number of rotating `"code"`
items, receives an event of any kind other than `"code"` — not only
`"success"` — it takes the success transition: if the now-authenticated
session has no resolvable identity (`Store.ID` nil), it logs the anomaly
and exits without persisting anything or touching the handlers; otherwise
it swaps the registered event handler to the live one, issues the
repository update of the tenant record's remote session identity, cancels
the timer, and exits (the deferred cleanup then clears the flag and the
cache entry). -/
theorem observe_noncode_event_transition (s : MiauState) (c : Client) (id : String)
    (env : ObsEnv) (codes : List String) (item : QRItem) (rest : List ObsSignal)
    (hguard : s.observerRunning id = none)
    (hqr : env.qrChanErr = none)
    (hconn : c.connected = true)
    (hsig : env.signals = codes.map (fun q => ObsSignal.recv ⟨"code", q⟩)
        ++ ObsSignal.recv item :: rest)
    (hitem : item.event ≠ "code") :
    (c.store.id = none →
      (observeConnection s c id env).exit = .successNoJid ∧
      (observeConnection s c id env).state.repoUpdates = s.repoUpdates ∧
      (observeConnection s c id env).client = c ∧
      (observeConnection s c id env).cancelled = true) ∧
    (∀ j, c.store.id = some j →
      (observeConnection s c id env).exit = .success ∧
      (observeConnection s c id env).client.handlers = [Handler.handle id] ∧
      (observeConnection s c id env).state.repoUpdates
        = s.repoUpdates ++ [(id, j.render)] ∧
      (observeConnection s c id env).cancelled = true ∧
      (observeConnection s c id env).state.observerRunning id = none ∧
      (observeConnection s c id env).state.qrCache id = none) := by
  have hfold := cacheFold_preserves id codes
    { s with observerRunning := mapUpd s.observerRunning id true }
  have hbody : obsBody env id { s with observerRunning := mapUpd s.observerRunning id true } c
      = obsLoop env id (ObsSignal.recv item :: rest)
          (cacheStoreAll id codes
            { s with observerRunning := mapUpd s.observerRunning id true }) c := by
    simp only [obsBody, hqr, hconn, if_pos, hsig]
    exact obsLoop_codes env id codes _ _ c
  constructor
  · intro hid
    have hstep : obsBody env id { s with observerRunning := mapUpd s.observerRunning id true } c
        = ⟨cacheStoreAll id codes
            { s with observerRunning := mapUpd s.observerRunning id true }, c,
           .successNoJid, true⟩ := by
      rw [hbody]; simp [obsLoop, hitem, hid]
    rw [observeConnection_eq s c id env hguard, hstep]
    refine ⟨by simp, ?_, by simp, by simp⟩
    simp only [deferClear]
    exact hfold.2.1
  · intro j hid
    have hstep : obsBody env id { s with observerRunning := mapUpd s.observerRunning id true } c
        = ⟨{ cacheStoreAll id codes
              { s with observerRunning := mapUpd s.observerRunning id true }
             with repoUpdates :=
              (cacheStoreAll id codes
                { s with observerRunning := mapUpd s.observerRunning id true }).repoUpdates
                ++ [(id, j.render)] },
           { c with handlers := [Handler.handle id] }, .success, true⟩ := by
      rw [hbody]; simp [obsLoop, hitem, hid]
    rw [observeConnection_eq s c id env hguard, hstep]
    refine ⟨by simp, by simp, ?_, by simp, by simp [deferClear, mapDel],
      by simp [deferClear, mapDel]⟩
    simp [deferClear, hfold.2.1]

/-- Observer environment delivering one rotating code and then a
`"success"` event. -/
def wEnvSuccess : ObsEnv :=
  { qrChanErr := none, connectErr := none, logoutErr := none,
    deleteFails := false, updateErr := none,
    signals := [.recv ⟨"code", "Q1"⟩, .recv ⟨"success", ""⟩] }

/-- Witness for `observe_noncode_event_transition` at a concrete run. -/
theorem observe_noncode_event_transition_witness :
    (observeConnection wState wClient "t1" wEnvSuccess).exit = ObsExit.success ∧
    (observeConnection wState wClient "t1" wEnvSuccess).client.handlers
      = [Handler.handle "t1"] ∧
    (observeConnection wState wClient "t1" wEnvSuccess).state.repoUpdates
      = wState.repoUpdates ++ [("t1", wJid.render)] ∧
    (observeConnection wState wClient "t1" wEnvSuccess).cancelled = true ∧
    (observeConnection wState wClient "t1" wEnvSuccess).state.observerRunning "t1" = none ∧
    (observeConnection wState wClient "t1" wEnvSuccess).state.qrCache "t1" = none :=
  (observe_noncode_event_transition wState wClient "t1" wEnvSuccess ["Q1"]
    ⟨"success", ""⟩ [] rfl rfl rfl rfl (by decide)).2 wJid rfl

/-- Outcome oracle for the caller-facing poll of `observeAndQrCode`: either
a ticker observation found a non-empty cached code, or the 15-second
context ended. -/
inductive WaitOutcome where
  | codeAppeared (qr : String)
  | windowExpired
deriving DecidableEq, Repr

/-- Embedding of the return sites of `Whatsmiau.observeAndQrCode`
(lines 251–274): both sites return a `nil` error — `(qrCode, nil)` when a
non-empty code was observed in the cache, `("", nil)` when the wait's
context ended.  The function has no non-nil error return. -/
def observeAndQrCode (outcome : WaitOutcome) : String × Option Err :=
  match outcome with
  | .codeAppeared qr => (qr, none)
  | .windowExpired => ("", none)

/-- Oracle for the external calls `Connect` makes. -/
structure ConnectEnv where
  logoutErr : Option Err
  deleteFails : Bool
  waitOutcome : WaitOutcome

/-- Embedding of the first step of `Connect` (lines 142–147): load the
session for the tenant, or freshly create (via `container.NewDevice` and
`NewClient`) and register one. -/
def connectEnsure (s : MiauState) (id : String) : Client × MiauState :=
  match s.clients id with
  | some c => (c, s)
  | none =>
    let c := NewClient ⟨none⟩ false
    (c, { s with clients := mapUpd s.clients id c })

/-- Embedding of the stale-identity replacement step of `Connect`
(lines 153–165): a non-logged-in session whose store carries an identity is
torn down (best-effort logout, disconnect, device delete with failures
logged) and replaced by a fresh unregistered one.  The Go
`client.Store != nil && client.Store.ID != nil` test is modelled as
`store.id ≠ none`, since every client built by `NewClient` carries a
store. -/
def connectReplaceStale (cs : Client × MiauState) (id : String) (env : ConnectEnv) :
    Client × MiauState :=
  match cs.1.store.id with
  | some _ =>
    let sDel := if env.deleteFails then cs.2
      else { cs.2 with container := cs.2.container.filter (fun x => decide (x ≠ cs.1.store)) }
    let c := NewClient ⟨none⟩ false
    (c, { sDel with clients := mapUpd sDel.clients id c })
  | none => cs

/-- Embedding of the tail of `Connect` (lines 167–176): return a cached
pairing code as-is, otherwise spawn the observer concurrently and poll the
cache via `observeAndQrCode`, propagating an error were one ever
returned. -/
def connectWait (s2 : MiauState) (env : ConnectEnv) (id : String) :
    (String × Option Err) × MiauState :=
  match s2.qrCache id with
  | some qr => ((qr, none), s2)
  | none =>
    match observeAndQrCode env.waitOutcome with
    | (_, some e) => (("", some e), s2)
    | (qr, none) => ((qr, none), s2)

/-- Embedding of `Whatsmiau.Connect` (lines 141–177), assembled from the
three steps above: ensure a registered session, return `("", nil)` if it is
already logged in, replace a stale-identity session, then return a cached
code or poll. -/
def Connect (s : MiauState) (id : String) (env : ConnectEnv) :
    (String × Option Err) × MiauState :=
  let cs := connectEnsure s id
  if cs.1.loggedIn then (("", none), cs.2)
  else connectWait (connectReplaceStale cs id env).2 env id

/-- Every return site of the caller-facing wait carries a `nil` error. -/
theorem connectWait_err_none (s2 : MiauState) (env : ConnectEnv) (id : String) :
    (connectWait s2 env id).1.2 = none := by
  unfold connectWait
  cases s2.qrCache id with
  | some qr => rfl
  | none => cases env.waitOutcome <;> simp [observeAndQrCode]

/-- The ensure step never touches the pairing cache. -/
theorem connectEnsure_qrCache (s : MiauState) (id : String) :
    (connectEnsure s id).2.qrCache = s.qrCache := by
  unfold connectEnsure
  cases s.clients id <;> rfl

/-- The stale-replacement step never touches the pairing cache. -/
theorem connectReplaceStale_qrCache (cs : Client × MiauState) (id : String)
    (env : ConnectEnv) :
    (connectReplaceStale cs id env).2.qrCache = cs.2.qrCache := by
  unfold connectReplaceStale
  cases cs.1.store.id with
  | none => rfl
  | some j => cases h : env.deleteFails <;> simp [h]

/-- When no session is registered or the registered session is not logged
in, neither is the session `connectEnsure` yields. -/
theorem connectEnsure_loggedIn (s : MiauState) (id : String)
    (h : (s.clients id).elim false Client.loggedIn = false) :
    (connectEnsure s id).1.loggedIn = false := by
  unfold connectEnsure
  cases hc : s.clients id with
  | none => rfl
  | some c => simpa [hc] using h

/-- C2: `Connect` returns a non-nil error only for hard pairing-channel
failures — in this code that error return is in fact unreachable, since
`observeAndQrCode` has no non-nil error return site (a QR-channel open
failure terminates the background observer and is only logged there), so
the error component is always `none`; and when the session is not already
authenticated, no code is cached, and the caller-facing 15-second wait
window expires with no code observed, the result is exactly `("", nil)`:
an empty code and success, not an error. -/
theorem connect_error_only_hard_failures (s : MiauState) (id : String) (env : ConnectEnv) :
    (Connect s id env).1.2 = none ∧
    ((s.clients id).elim false Client.loggedIn = false →
      s.qrCache id = none →
      env.waitOutcome = .windowExpired →
      (Connect s id env).1 = ("", none)) := by
  constructor
  · unfold Connect
    by_cases h : (connectEnsure s id).1.loggedIn = true
    · simp [h]
    · simp only [Bool.not_eq_true] at h
      simp [h, connectWait_err_none]
  · intro h1 h2 h3
    have hl := connectEnsure_loggedIn s id h1
    have hq : (connectReplaceStale (connectEnsure s id) id env).2.qrCache id = none := by
      rw [connectReplaceStale_qrCache, connectEnsure_qrCache]
      exact h2
    unfold Connect
    simp only [hl, Bool.false_eq_true, if_false]
    unfold connectWait
    rw [hq, h3]
    simp [observeAndQrCode]

/-- Connect environment whose caller-facing wait expires with no code. -/
def wEnvConnect : ConnectEnv :=
  { logoutErr := none, deleteFails := false, waitOutcome := .windowExpired }

/-- Witness for `connect_error_only_hard_failures` at a concrete call on a
tenant with no registered session and an expiring wait window. -/
theorem connect_error_only_hard_failures_witness :
    (Connect wState "t2" wEnvConnect).1.2 = none ∧
    (Connect wState "t2" wEnvConnect).1 = ("", none) :=
  have h := connect_error_only_hard_failures wState "t2" wEnvConnect
  ⟨h.1, h.2 rfl rfl rfl⟩

/-- Embedding of `Whatsmiau.Logout` (lines 298–306): a missing session is a
logged success no-op; otherwise the protocol client's `Logout(ctx)` result
is returned directly.  No map is mutated, so the state is returned
unchanged. -/
def Logout (s : MiauState) (id : String) : Option Err × MiauState :=
  match s.clients id with
  | none => (none, s)
  | some client => (client.logoutResult, s)

/-- C10: for every tenant with a registered session, `Logout` returns the
protocol client's logout result unchanged — a failure is surfaced to the
caller, not logged and swallowed — and it mutates neither the session
registry nor the pairing cache: the state is returned as-is, so the session
handle stays registered even after a successful logout. -/
theorem logout_passthrough_no_mutation (s : MiauState) (id : String) (client : Client)
    (h : s.clients id = some client) :
    Logout s id = (client.logoutResult, s) ∧
    (Logout s id).2.clients id = some client ∧
    (Logout s id).2.qrCache = s.qrCache := by
  unfold Logout
  rw [h]
  exact ⟨rfl, h, rfl⟩

/-- Concrete state with a registered session and a failing logout. -/
def wStateLogout : MiauState :=
  ⟨mapUpd (fun _ => none) "t1" { wClient with logoutResult := some ⟨"logout failed"⟩ },
    [⟨some wJid⟩], fun _ => none, [], fun _ => none, fun _ => none, fun _ => none⟩

/-- Witness for `logout_passthrough_no_mutation` at a concrete state: the
logout error is surfaced and the session stays registered. -/
theorem logout_passthrough_no_mutation_witness :
    Logout wStateLogout "t1"
      = (some ⟨"logout failed"⟩, wStateLogout) ∧
    (Logout wStateLogout "t1").2.clients "t1"
      = some { wClient with logoutResult := some ⟨"logout failed"⟩ } ∧
    (Logout wStateLogout "t1").2.qrCache = wStateLogout.qrCache :=
  logout_passthrough_no_mutation wStateLogout "t1"
    { wClient with logoutResult := some ⟨"logout failed"⟩ } rfl

/-- Embedding of `Whatsmiau.extractJidLid` (lines 334–364).  Go returns the
pair `(value, err)` from the LID-store lookups with the zero JID as the
value on error; the `Except` result is unpacked accordingly.  No session →
`(normalized input, "")`; a phone-number-addressed JID → the forward lookup
with the error ignored (the zero JID renders as `""`); a privacy-addressed
JID → the reverse lookup, falling back to the privacy identity for both
components on error or an empty mapping; any other server →
`(normalized input, "")`. -/
def extractJidLid (s : MiauState) (id : String) (jid : JID) : String × String :=
  match s.clients id with
  | none => (jid.toNonAD.render, "")
  | some client =>
    if jid.server = DefaultUserServer then
      let lid := match client.lids.getLIDForPN jid with
        | .ok l => l
        | .error _ => emptyJID
      (jid.toNonAD.render, lid.toNonAD.render)
    else if jid.server = HiddenUserServer then
      let lidString := jid.toNonAD.render
      match client.lids.getPNForLID jid with
      | .error _ => (jid.toNonAD.render, lidString)
      | .ok pnJID =>
        if !pnJID.isEmpty then (pnJID.toNonAD.render, lidString)
        else (lidString, lidString)
    else (jid.toNonAD.render, "")

/-- Embedding of the wrapper `Whatsmiau.GetJidLid` (lines 325–332), which
additionally forces the privacy-identity component whenever the resolved
canonical identity is itself privacy-addressed. -/
def GetJidLid (s : MiauState) (id : String) (jid : JID) : String × String :=
  let p := extractJidLid s id jid
  if p.1.endsWith "@lid" then (p.1, p.1) else p

/-- Identity resolution written from the words of claim C9: no registered
session → (normalized input identity, empty privacy identity); a
phone-number-addressed identity → (normalized phone identity, normalized
privacy identity from the session's local mapping, or empty on lookup
failure); a privacy-addressed identity with a found non-empty reverse
mapping → (normalized phone identity, normalized privacy identity), and
with no reverse mapping or a failed lookup → (normalized privacy identity,
normalized privacy identity).  Any other address kind (not covered by the
claim) is carried over from the code. -/
def extractJidLidSpec (s : MiauState) (id : String) (jid : JID) : String × String :=
  match s.clients id with
  | none => (jid.toNonAD.render, "")
  | some client =>
    if jid.server = DefaultUserServer then
      match client.lids.getLIDForPN jid with
      | .ok l => (jid.toNonAD.render, l.toNonAD.render)
      | .error _ => (jid.toNonAD.render, "")
    else if jid.server = HiddenUserServer then
      match client.lids.getPNForLID jid with
      | .ok pnJID =>
        if pnJID.isEmpty then (jid.toNonAD.render, jid.toNonAD.render)
        else (pnJID.toNonAD.render, jid.toNonAD.render)
      | .error _ => (jid.toNonAD.render, jid.toNonAD.render)
    else (jid.toNonAD.render, "")

/-- C9: the identity resolver agrees, on every state, tenant and input
identity, with the claimed case analysis (the error case of the forward
lookup yields the empty string because the zero JID renders empty). -/
theorem extractJidLid_matches_spec (s : MiauState) (id : String) (jid : JID) :
    extractJidLid s id jid = extractJidLidSpec s id jid := by
  unfold extractJidLid extractJidLidSpec
  cases s.clients id with
  | none => rfl
  | some client =>
    dsimp only
    by_cases h1 : jid.server = DefaultUserServer
    · simp only [h1, if_pos]
      cases client.lids.getLIDForPN jid with
      | ok l => rfl
      | error e => simp [emptyJID, JID.toNonAD, JID.render]
    · by_cases h2 : jid.server = HiddenUserServer
      · rw [if_neg h1, if_neg h1, if_pos h2, if_pos h2]
        cases client.lids.getPNForLID jid with
        | ok pnJID => cases h : pnJID.isEmpty <;> simp [h]
        | error e => rfl
      · simp [h1, h2]

/-- Position of one `observeConnection` call inside its entry guard
(lines 180–186): about to `Load` the observer flag, about to `Store` it,
past the guard (the observer body runs), or exited as a no-op because the
`Load` saw the flag. -/
inductive GuardPC where
  | atLoad
  | atStore
  | passedGuard
  | exitedNoOp
deriving DecidableEq, Repr

/-- Interleaving state of two concurrent `observeConnection` calls for the
same tenant id: whether `observerRunning` holds the id, and each call's
position in the guard. -/
structure GuardState where
  flag : Bool
  t0 : GuardPC
  t1 : GuardPC
deriving DecidableEq, Repr

/-- One atomic step of the chosen call (`false` = first, `true` = second),
embedding the guard as written: `observerRunning.Load(id)` is one step
(exit if the flag is set, else move on to the store), and
`observerRunning.Store(id, true)` is a separate later step, after which the
call has passed the guard. -/
def guardStep (g : GuardState) (choose : Bool) : GuardState :=
  let pc := if choose then g.t1 else g.t0
  let next :=
    match pc with
    | .atLoad => ((if g.flag then GuardPC.exitedNoOp else .atStore), g.flag)
    | .atStore => (.passedGuard, true)
    | p => (p, g.flag)
  if choose then { g with t1 := next.1, flag := next.2 }
  else { g with t0 := next.1, flag := next.2 }

/-- Run a schedule (a list of thread choices) from a guard state. -/
def guardRun (g : GuardState) : List Bool → GuardState
  | [] => g
  | c :: rest => guardRun (guardStep g c) rest

/-- Both calls start at the `Load` with the flag clear. -/
def guardInit : GuardState := ⟨false, .atLoad, .atLoad⟩

/-- C1: evaluation of the guard at the racy schedule — first call loads,
second call loads, first stores, second stores.  Because the guard is a
separate `Load` followed by a `Store` rather than a single atomic
check-and-set, both concurrent calls pass the entry guard and both
observers proceed, contradicting the claimed mutual exclusion (the spec's
§9 itself flags this naive load-then-store pattern as racy, so the code,
not the claim, is at fault). -/
theorem guard_race_both_pass :
    guardRun guardInit [false, true, false, true]
      = { flag := true, t0 := .passedGuard, t1 := .passedGuard } := by
  decide

/-- Model of the context trees the core builds (`golang.org/x/net/context`):
the background/TODO contexts are never done; a caller's context may carry a
cancellation instant; `WithTimeout` derives a context that is done when its
parent is done or its own deadline (in seconds from its creation) has
passed. -/
inductive Ctx where
  | background
  | todo
  | cancellable (cancelAt : Option Nat)
  | withTimeout (parent : Ctx) (deadline : Nat)

/-- Whether a context's `Done` channel has fired by time `t` (seconds). -/
def ctxDone : Ctx → Nat → Bool
  | .background, _ => false
  | .todo, _ => false
  | .cancellable none, _ => false
  | .cancellable (some t0), t => decide (t0 ≤ t)
  | .withTimeout p d, t => ctxDone p t || decide (d ≤ t)

/-- Embedding of line 252: the caller-facing wait of `observeAndQrCode`
runs under `context.WithTimeout(ctx, 15*time.Second)` where `ctx` is the
caller's context. -/
def observeAndQrCodeCtx (caller : Ctx) : Ctx := .withTimeout caller 15

/-- Embedding of line 192: the Pairing Observer runs under
`context.WithTimeout(context.TODO(), time.Minute*2)`, independent of the
caller. -/
def observeConnectionCtx : Ctx := .withTimeout .todo 120

/-- C8 counterexample: with the caller's context cancelled at second 1, the
caller-facing wait's context is already done at second 1 — before its own
15-second timer — so the wait is not ended "only by its own timer": it
derives from, and is cancelled by, the caller's context. -/
theorem caller_cancel_ends_wait :
    ctxDone (observeAndQrCodeCtx (Ctx.cancellable (some 1))) 1 = true ∧
    ctxDone (observeAndQrCodeCtx Ctx.background) 1 = false ∧
    (1 : Nat) < 15 := by
  refine ⟨rfl, rfl, by norm_num⟩

/-- C8 (amended): the caller-facing wait inside `Connect` is ended by its
own 15-second timer, by a code appearing in the cache, or by cancellation
of the caller's context — its context is derived from the caller's — while
the Pairing Observer's context is derived from an independent background
context: its doneness is exactly "the 2-minute window has elapsed",
regardless of the caller's context, so cancelling or expiring the
caller-facing wait never cancels the observer and a late-arriving code is
still cached for a later `Connect` call. -/
theorem wait_derives_from_caller_observer_independent (c : Ctx) (t : Nat) :
    ctxDone (observeAndQrCodeCtx c) t = (ctxDone c t || decide (15 ≤ t)) ∧
    ctxDone observeConnectionCtx t = decide (120 ≤ t) := by
  exact ⟨rfl, rfl⟩

/-- One persisted device record at bootstrap, together with the oracle
results of the external calls made for it: whether the freshly constructed
client reports `IsLoggedIn`, what its `Connect()` would return, and whether
`container.DeleteDevice` would fail for it. -/
structure BootDevice where
  store : DeviceStore
  loggedIn : Bool
  connectErr : Option Err
  deleteFails : Bool
deriving DecidableEq, Repr

/-- The client `LoadMiau` builds for a persisted device
(`whatsmeow.NewClient(device, clientLog)`). -/
def bootClient (d : BootDevice) : Client := NewClient d.store d.loggedIn

/-- State accumulated by the bootstrap loop: the registry being built, the
persisted-device container, and the devices that were discarded (best-effort
logout, disconnect, and delete attempted). -/
structure BootState where
  clients : String → Option Client
  container : List DeviceStore
  discarded : List DeviceStore

/-- Embedding of lines 66–73: the index from remote session identity to
tenant record, skipping tenants with an empty `RemoteJID` (later records
overwrite earlier ones, as for a Go map). -/
def buildIndex (l : List Instance) : String → Option Instance :=
  l.foldl
    (fun m inst => if inst.remoteJID.length ≤ 0 then m else mapUpd m inst.remoteJID inst)
    (fun _ => none)

/-- Embedding of the discard arm of the bootstrap loop (lines 81–86 and
99–103): best-effort logout and disconnect (results ignored), then delete
the device from the persisted store (a failure is logged and leaves it). -/
def discardDevice (st : BootState) (d : BootDevice) : BootState :=
  { st with
    container := if d.deleteFails then st.container
      else st.container.filter (fun x => decide (x ≠ d.store)),
    discarded := st.discarded ++ [d.store] }

/-- Embedding of one iteration of the bootstrap loop (lines 78–105): a
device with no resolved identity is discarded; a device whose identity
matches a tenant record gets the tenant's proxy configuration applied and
is registered under the tenant id, and, when already authenticated, is
connected (a connect error is logged and does not fail the bootstrap); a
device with no matching tenant is discarded. -/
def loadStep (index : String → Option Instance) (st : BootState) (d : BootDevice) :
    BootState :=
  match d.store.id with
  | none => discardDevice st d
  | some j =>
    match index j.render with
    | some inst =>
      let client := configProxy (bootClient d) inst.proxy
      let client :=
        if client.loggedIn then
          match d.connectErr with
          | none => { client with connected := true }
          | some _ => client
        else client
      { st with clients := mapUpd st.clients inst.id client }
    | none => discardDevice st d

/-- Embedding of the final pass of `LoadMiau` (lines 133–137): attach the
event handler to every surviving session. -/
def attachHandlers (st1 : BootState) : BootState :=
  { st1 with clients := fun k =>
      (st1.clients k).map fun c => { c with handlers := c.handlers ++ [Handler.handle k] } }

/-- Embedding of the reconciliation part of `LoadMiau` (lines 47–139
without the singleton/emitter wiring): fold the loop over all persisted
devices, then attach the event handler to every surviving session. -/
def LoadMiau (devices : List BootDevice) (instanceList : List Instance) (st : BootState) :
    BootState :=
  attachHandlers (devices.foldl (loadStep (buildIndex instanceList)) st)

/-- A persisted device the bootstrap must discard: no resolved identity, or
an identity matching no tenant record. -/
def orphanDevice (index : String → Option Instance) (d : BootDevice) : Prop :=
  d.store.id = none ∨ ∃ j, d.store.id = some j ∧ index j.render = none

/-- One bootstrap iteration never removes a discard record. -/
theorem loadStep_discarded_mono (index : String → Option Instance) (st : BootState)
    (d : BootDevice) (x : DeviceStore) (h : x ∈ st.discarded) :
    x ∈ (loadStep index st d).discarded := by
  unfold loadStep
  cases hd : d.store.id with
  | none => exact List.mem_append_left _ h
  | some j =>
    dsimp only
    cases hi : index j.render with
    | some inst => exact h
    | none => exact List.mem_append_left _ h

/-- The discard arm never re-adds a device to the container. -/
theorem discardDevice_container_antitone (st : BootState) (d : BootDevice)
    (x : DeviceStore) (h : x ∉ st.container) :
    x ∉ (discardDevice st d).container := by
  intro hx
  apply h
  unfold discardDevice at hx
  by_cases hdel : d.deleteFails = true
  · rw [if_pos hdel] at hx; exact hx
  · rw [if_neg hdel] at hx; exact List.filter_subset' st.container hx

/-- One bootstrap iteration never re-adds a device to the container. -/
theorem loadStep_container_antitone (index : String → Option Instance) (st : BootState)
    (d : BootDevice) (x : DeviceStore) (h : x ∉ st.container) :
    x ∉ (loadStep index st d).container := by
  unfold loadStep
  cases hd : d.store.id with
  | none => exact discardDevice_container_antitone st d x h
  | some j =>
    dsimp only
    cases hi : index j.render with
    | some inst => exact h
    | none => exact discardDevice_container_antitone st d x h

/-- The whole bootstrap fold never removes a discard record. -/
theorem foldl_discarded_mono (index : String → Option Instance)
    (devices : List BootDevice) :
    ∀ (st : BootState) (x : DeviceStore), x ∈ st.discarded →
      x ∈ (devices.foldl (loadStep index) st).discarded := by
  induction devices with
  | nil => intro st x h; exact h
  | cons e rest ih =>
    intro st x h
    exact ih _ x (loadStep_discarded_mono index st e x h)

/-- The whole bootstrap fold never re-adds a device to the container. -/
theorem foldl_container_antitone (index : String → Option Instance)
    (devices : List BootDevice) :
    ∀ (st : BootState) (x : DeviceStore), x ∉ st.container →
      x ∉ (devices.foldl (loadStep index) st).container := by
  induction devices with
  | nil => intro st x h; exact h
  | cons e rest ih =>
    intro st x h
    exact ih _ x (loadStep_container_antitone index st e x h)

/-- An orphan device's iteration is exactly the discard arm. -/
theorem loadStep_orphan (index : String → Option Instance) (st : BootState)
    (d : BootDevice) (h : orphanDevice index d) :
    loadStep index st d = discardDevice st d := by
  unfold loadStep
  rcases h with h | ⟨j, hj, hi⟩
  · rw [h]
  · rw [hj]; dsimp only; rw [hi]

/-- C7: the Bootstrap Reconciler, on any persisted device list and tenant
list, (a) discards every device with no resolved identity and every device
whose identity matches no tenant record — such a device ends among the
discarded (teardown attempted) and, when the external delete does not fail,
is no longer in the persisted container; and (b) each iteration on a device
whose identity matches a tenant record registers, under that tenant's id, a
session with the tenant's proxy configuration applied, connected exactly
when the device was already authenticated and the reconnect did not fail —
a reconnect error is logged, leaves the session registered and never fails
the bootstrap — and discards nothing. -/
theorem loadMiau_reconciles (devices : List BootDevice) (insts : List Instance)
    (st : BootState) :
    (∀ d, d ∈ devices → orphanDevice (buildIndex insts) d →
      d.store ∈ (LoadMiau devices insts st).discarded ∧
      (d.deleteFails = false → d.store ∉ (LoadMiau devices insts st).container)) ∧
    (∀ (st2 : BootState) (d : BootDevice) (j : JID) (inst : Instance),
      d.store.id = some j → buildIndex insts j.render = some inst →
      (loadStep (buildIndex insts) st2 d).clients inst.id
        = some { bootClient d with
            proxy := inst.proxy, connected := d.loggedIn && d.connectErr.isNone } ∧
      (loadStep (buildIndex insts) st2 d).discarded = st2.discarded ∧
      (loadStep (buildIndex insts) st2 d).container = st2.container) := by
  constructor
  · intro d hmem horph
    have key : ∀ (l : List BootDevice) (st0 : BootState), d ∈ l →
        d.store ∈ (l.foldl (loadStep (buildIndex insts)) st0).discarded ∧
        (d.deleteFails = false →
          d.store ∉ (l.foldl (loadStep (buildIndex insts)) st0).container) := by
      intro l
      induction l with
      | nil => intro st0 h; simp at h
      | cons e rest ih =>
        intro st0 h
        rcases List.mem_cons.mp h with he | hrest
        · subst he
          rw [List.foldl_cons, loadStep_orphan _ _ _ horph]
          constructor
          · exact foldl_discarded_mono _ rest _ _ (by simp [discardDevice])
          · intro hdel
            refine foldl_container_antitone _ rest _ _ ?_
            simp [discardDevice, hdel, List.mem_filter]
        · exact ih _ hrest
    have h := key devices st hmem
    refine ⟨?_, ?_⟩
    · simpa [LoadMiau] using h.1
    · intro hdel
      simpa [LoadMiau] using h.2 hdel
  · intro st2 d j inst hj hi
    unfold loadStep
    rw [hj]
    dsimp only
    rw [hi]
    refine ⟨?_, rfl, rfl⟩
    simp only [mapUpd, if_pos rfl]
    cases hl : d.loggedIn with
    | false => simp [configProxy, bootClient, NewClient, hl]
    | true =>
      cases hce : d.connectErr with
      | none => simp [configProxy, bootClient, NewClient, hl, hce]
      | some e => simp [configProxy, bootClient, NewClient, hl, hce]

/-- Concrete bootstrap device with no resolved identity. -/
def wDevOrphan : BootDevice := ⟨⟨none⟩, false, none, false⟩

/-- Concrete bootstrap device whose identity matches the tenant list and
which is already authenticated. -/
def wDevMatch : BootDevice := ⟨⟨some wJid⟩, true, none, false⟩

/-- Concrete tenant list: one record whose remote identity matches
`wDevMatch`. -/
def wInsts : List Instance := [⟨"t1", "5511@s.whatsapp.net", some "http-proxy"⟩]

/-- Concrete initial bootstrap state holding both devices. -/
def wBoot : BootState := ⟨fun _ => none, [⟨none⟩, ⟨some wJid⟩], []⟩

/-- Witness for `loadMiau_reconciles` at a concrete bootstrap run. -/
theorem loadMiau_reconciles_witness :
    wDevOrphan.store ∈ (LoadMiau [wDevOrphan, wDevMatch] wInsts wBoot).discarded ∧
    wDevOrphan.store ∉ (LoadMiau [wDevOrphan, wDevMatch] wInsts wBoot).container ∧
    (loadStep (buildIndex wInsts) wBoot wDevMatch).clients "t1"
      = some { bootClient wDevMatch with
          proxy := some "http-proxy",
          connected := wDevMatch.loggedIn && wDevMatch.connectErr.isNone } ∧
    (loadStep (buildIndex wInsts) wBoot wDevMatch).discarded = wBoot.discarded ∧
    (loadStep (buildIndex wInsts) wBoot wDevMatch).container = wBoot.container :=
  have h := loadMiau_reconciles [wDevOrphan, wDevMatch] wInsts wBoot
  have ha := h.1 wDevOrphan (List.mem_cons_self _ _) (Or.inl rfl)
  have hb := h.2 wBoot wDevMatch wJid ⟨"t1", "5511@s.whatsapp.net", some "http-proxy"⟩
    rfl (by decide)
  ⟨ha.1, ha.2 rfl, hb.1, hb.2.1, hb.2.2⟩

end Whatsmiau
